import Mathlib

/-!
Verification development for the change-detection and fan-out subsystem of a
real-time geospatial dashboard server.

The definitions below are a shallow embedding of the TypeScript sources:
  * `apps/server/src/websocket.ts` — change detector (`pollForUpdates`),
    poll scheduler (`startPolling`/`stopPolling`), pub/sub broadcaster
    (`broadcast`) and the WebSocket open/message/close/error handlers;
  * the earlier set-based revision of the same module — connection-set
    broadcaster (`broadcast` iterating a `Set` of sockets);
  * the notification-center module — Kafka ingestion (`eachMessage`),
    `publish`, and `savePushSubscription` (upsert by endpoint).

Timestamps are modelled as natural numbers (milliseconds since epoch);
database rows as Lean structures; the `assets` table as a list of rows; a
caught exception as an `Except.error` branch. Nondeterministic inputs of the
runtime (fresh UUIDs, wall-clock reads, which socket writes fail) are passed
in as explicit parameters.
-/

/-- A row of the `assets` table: identity, mutable fields, and the three
timestamps `created_at`, `updated_at`, `deleted_at` (nullable) used by the
change detector. Geometry and the free-form property map are opaque here. -/
structure AssetRecord where
  id : Nat
  name : String
  type : String
  status : String
  geometry : String
  properties : List (String × String)
  created_at : Nat
  updated_at : Nat
  deleted_at : Option Nat
deriving DecidableEq, Repr

/-- WHERE clause of the first query of `pollForUpdates`:
`created_at > T AND created_at = updated_at AND deleted_at IS NULL`. -/
def createdPred (T : Nat) (a : AssetRecord) : Bool :=
  decide (T < a.created_at) && (a.created_at == a.updated_at) && (a.deleted_at == none)

/-- WHERE clause of the second query of `pollForUpdates`:
`updated_at > T AND updated_at > created_at AND deleted_at IS NULL`. -/
def updatedPred (T : Nat) (a : AssetRecord) : Bool :=
  decide (T < a.updated_at) && decide (a.created_at < a.updated_at) && (a.deleted_at == none)

/-- WHERE clause of the third query of `pollForUpdates`:
`deleted_at > T AND deleted_at IS NOT NULL`. -/
def deletedPred (T : Nat) (a : AssetRecord) : Bool :=
  match a.deleted_at with
  | some d => decide (T < d)
  | none => false

/-- Insert into a list sorted descending by `key` (used to model
`ORDER BY ... DESC`). -/
def insertDesc {α : Type} (key : α → Nat) (a : α) : List α → List α
  | [] => [a]
  | b :: l => if key b ≤ key a then a :: b :: l else b :: insertDesc key a l

/-- Sort descending by `key`, modelling the `ORDER BY ... DESC` of each
store query (only membership matters to the claims below). -/
def sortDesc {α : Type} (key : α → Nat) : List α → List α
  | [] => []
  | a :: l => insertDesc key a (sortDesc key l)

/-- Result set of the created-assets query of `pollForUpdates`. -/
def createdQuery (table : List AssetRecord) (T : Nat) : List AssetRecord :=
  sortDesc (fun a => a.created_at) (table.filter (createdPred T))

/-- Result set of the updated-assets query of `pollForUpdates`. -/
def updatedQuery (table : List AssetRecord) (T : Nat) : List AssetRecord :=
  sortDesc (fun a => a.updated_at) (table.filter (updatedPred T))

/-- Result set of the deleted-assets query of `pollForUpdates`. -/
def deletedQuery (table : List AssetRecord) (T : Nat) : List AssetRecord :=
  sortDesc (fun a => a.deleted_at.getD 0) (table.filter (deletedPred T))

/-- The data store as seen by one detector run: the `assets` table plus one
failure flag per query, modelling a thrown database error at that point. -/
structure Store where
  table : List AssetRecord
  failCreated : Bool
  failUpdated : Bool
  failDeleted : Bool
deriving Repr

/-- The first store query; `Except.error` models a thrown query error. -/
def runCreatedQuery (st : Store) (T : Nat) : Except String (List AssetRecord) :=
  if st.failCreated then Except.error "query error" else Except.ok (createdQuery st.table T)

/-- The second store query. -/
def runUpdatedQuery (st : Store) (T : Nat) : Except String (List AssetRecord) :=
  if st.failUpdated then Except.error "query error" else Except.ok (updatedQuery st.table T)

/-- The third store query. -/
def runDeletedQuery (st : Store) (T : Nat) : Except String (List AssetRecord) :=
  if st.failDeleted then Except.error "query error" else Except.ok (deletedQuery st.table T)

/-- Properties object of an outbound GeoJSON feature (the standard keys,
with the asset's custom property map carried alongside). -/
structure FeatureProps where
  id : Nat
  name : String
  type : String
  status : String
  createdAt : Nat
  updatedAt : Nat
  custom : List (String × String)
deriving DecidableEq, Repr

/-- Outbound GeoJSON feature payload of `asset_create` / `asset_update`. -/
structure Feature where
  id : Nat
  geometry : String
  properties : FeatureProps
deriving DecidableEq, Repr

/-- Payload of an outbound WebSocket message. -/
inductive WSData where
  | feature : Feature → WSData
  | deletedId : Nat → WSData
  | text : String → WSData
deriving DecidableEq, Repr

/-- An outbound WebSocket message `{ type, data?, timestamp }`. -/
structure WSMessage where
  type : String
  data : Option WSData
  timestamp : Nat
deriving DecidableEq, Repr

/-- Projection of an asset row to the feature shape broadcast by the
detector. -/
def assetFeature (a : AssetRecord) : Feature :=
  { id := a.id
    geometry := a.geometry
    properties :=
      { id := a.id, name := a.name, type := a.type, status := a.status
        createdAt := a.created_at, updatedAt := a.updated_at, custom := a.properties } }

/-- The `asset_create` message built for one created row. -/
def assetCreateMsg (a : AssetRecord) (ts : Nat) : WSMessage :=
  { type := "asset_create", data := some (WSData.feature (assetFeature a)), timestamp := ts }

/-- The `asset_update` message built for one updated row. -/
def assetUpdateMsg (a : AssetRecord) (ts : Nat) : WSMessage :=
  { type := "asset_update", data := some (WSData.feature (assetFeature a)), timestamp := ts }

/-- The `asset_delete` message built for one soft-deleted row: identity only. -/
def assetDeleteMsg (i : Nat) (ts : Nat) : WSMessage :=
  { type := "asset_delete", data := some (WSData.deletedId i), timestamp := ts }

/-- What one detector run produced: the broadcast sequence, in emission
order, and the value of `lastCheckTime` after the run. -/
structure PollOutcome where
  events : List WSMessage
  lastCheckTime : Nat
deriving DecidableEq, Repr

/-- One run of `pollForUpdates`. `currentTime` is the wall-clock value
captured at the top of the `try` block, before any query is issued. The
three queries run in order; each successful category is broadcast before
the next query. A query error jumps to the `catch` block, which skips every
later statement — including the final `lastCheckTime = currentTime` — so on
failure the already-broadcast prefix stands and the watermark is unchanged.
The function is total: the `catch` means no exception escapes the run. -/
def pollForUpdates (st : Store) (lastCheckTime : Nat) (currentTime : Nat) : PollOutcome :=
  match runCreatedQuery st lastCheckTime with
  | Except.error _ => { events := [], lastCheckTime := lastCheckTime }
  | Except.ok created =>
    let ev1 := created.map (fun a => assetCreateMsg a currentTime)
    match runUpdatedQuery st lastCheckTime with
    | Except.error _ => { events := ev1, lastCheckTime := lastCheckTime }
    | Except.ok updates =>
      let ev2 := ev1 ++ updates.map (fun a => assetUpdateMsg a currentTime)
      match runDeletedQuery st lastCheckTime with
      | Except.error _ => { events := ev2, lastCheckTime := lastCheckTime }
      | Except.ok deleted =>
        { events := ev2 ++ deleted.map (fun a => assetDeleteMsg a.id currentTime)
          lastCheckTime := currentTime }

/-- A run succeeds when none of the three queries throws. -/
def pollSucceeds (st : Store) : Bool :=
  !st.failCreated && !st.failUpdated && !st.failDeleted

/-- A concrete asset row: created (and last touched) at time 7, not
deleted. Used to instantiate theorems with hypotheses. -/
def wRecord : AssetRecord :=
  { id := 1, name := "truck-1", type := "vehicle", status := "active"
    geometry := "POINT(0 0)", properties := []
    created_at := 7, updated_at := 7, deleted_at := none }

/-- A store with an empty table and no failing query. -/
def wStore : Store :=
  { table := [], failCreated := false, failUpdated := false, failDeleted := false }

/-- The store as seen by the next tick: `wRecord` has been committed. -/
def wStoreNext : Store :=
  { table := [wRecord], failCreated := false, failUpdated := false, failDeleted := false }

/-- A store whose second (updated-assets) query throws. -/
def wStoreFailing : Store :=
  { table := [wRecord], failCreated := false, failUpdated := true, failDeleted := false }

/-- The module-level mutable state of `websocket.ts` that the WebSocket
handlers touch: `subscriberCount`, whether `pollTimer` currently holds a
timer handle, and — to make "at most one active timer" expressible — the
number of interval timers that have been started and not cleared. -/
structure ServerState where
  subscriberCount : Nat
  pollTimer : Bool
  activeTimers : Nat
deriving DecidableEq, Repr

/-- `startPolling`: a no-op if a timer handle is already held, otherwise
`setInterval` creates one new timer and its handle is stored. -/
def startPolling (s : ServerState) : ServerState :=
  if s.pollTimer then s
  else { s with pollTimer := true, activeTimers := s.activeTimers + 1 }

/-- `stopPolling`: a no-op if no timer handle is held, otherwise
`clearInterval` cancels that timer and the handle is cleared. -/
def stopPolling (s : ServerState) : ServerState :=
  if s.pollTimer then { s with pollTimer := false, activeTimers := s.activeTimers - 1 }
  else s

/-- The `open` handler: increments `subscriberCount` and starts polling when
this is the first connection. -/
def handleOpen (s : ServerState) : ServerState :=
  let s1 := { s with subscriberCount := s.subscriberCount + 1 }
  if s1.subscriberCount == 1 then startPolling s1 else s1

/-- The `close` handler: `subscriberCount = Math.max(0, subscriberCount - 1)`
(truncated subtraction), then stops polling when the count reaches zero. -/
def handleClose (s : ServerState) : ServerState :=
  let s1 := { s with subscriberCount := s.subscriberCount - 1 }
  if s1.subscriberCount == 0 then stopPolling s1 else s1

/-- The `error` handler: `subscriberCount = Math.max(0, subscriberCount - 1)`.
Unlike `close`, it performs no zero-count check and never calls
`stopPolling`. -/
def handleError (s : ServerState) : ServerState :=
  { s with subscriberCount := s.subscriberCount - 1 }

/-- One step of the broadcast loop of the earlier set-based revision of the
module: `connections.forEach(ws => { try { ws.send } catch { delete } })`.
Sessions are identified by numbers; `fails` says which sockets' `send`
throws. The first argument is the iteration sequence (a `Set.forEach`
visits every element present at call time, and deleting the element
currently visited does not affect the rest of the visit); the second is the
live connection set it mutates. Returns the final connection set and the
number of send attempts made. -/
def broadcastEach (fails : Nat → Bool) : List Nat → List Nat → List Nat × Nat
  | [], conns => (conns, 0)
  | c :: rest, conns =>
    let connsAfter := if fails c then conns.erase c else conns
    let r := broadcastEach fails rest connsAfter
    (r.1, r.2 + 1)

/-- `broadcast` of the set-based revision: serialize once, then attempt a
send to every connection in the set, deleting a connection whose send
throws and continuing with the rest. -/
def broadcastSet (fails : Nat → Bool) (conns : List Nat) : List Nat × Nat :=
  broadcastEach fails conns conns

/-- Source tag of a notification, matching the union
`'api' | 'websocket' | 'kafka' | 'system'`; `kafka` is the tag the spec
calls "external-feed". -/
inductive NotificationSource where
  | api
  | websocket
  | kafka
  | system
deriving DecidableEq, Repr

/-- Severity enum `'info' | 'success' | 'warning' | 'critical'`. -/
inductive NotificationSeverity where
  | info
  | success
  | warning
  | critical
deriving DecidableEq, Repr

/-- The notification payload `publish` constructs and fans out. The
free-form `data` object is modelled as a string-valued field map. -/
structure NotificationPayload where
  id : String
  source : NotificationSource
  type : String
  severity : NotificationSeverity
  title : String
  message : String
  data : Option (List (String × String))
  createdAt : String
deriving DecidableEq, Repr

/-- The `NotificationInput` argument of `publish`. -/
structure NotificationInput where
  type : String
  title : String
  message : String
  severity : Option NotificationSeverity
  data : Option (List (String × String))
deriving DecidableEq, Repr

/-- `NotificationCenter.publish`: builds the payload with a fresh identity
(`freshId` stands for `randomUUID()`), the given source, severity defaulted
to `info`, and the current time (`now` stands for
`new Date().toISOString()`), then emits it. The emitted payload is what the
single `notification` listener hands to the broadcaster. -/
def publish (input : NotificationInput) (source : NotificationSource)
    (freshId : String) (now : String) : NotificationPayload :=
  { id := freshId
    source := source
    type := input.type
    severity := input.severity.getD NotificationSeverity.info
    title := input.title
    message := input.message
    data := input.data
    createdAt := now }

/-- A successfully JSON-parsed Kafka message body, as read by the
`eachMessage` handler: every field the handler looks at is optional.
`selfFields` stands for the parsed object itself viewed as a field map —
the fallback value of `data: parsed.data || parsed`. -/
structure KafkaParsed where
  type : Option String
  title : Option String
  message : Option String
  severity : Option NotificationSeverity
  data : Option (List (String × String))
  source : Option NotificationSource
  selfFields : List (String × String)
deriving DecidableEq, Repr

/-- The generic message text substituted when the Kafka payload has no
`message` field: `Message received on ${messageTopic}:${partition}`. -/
def kafkaDefaultMessage (topic : String) (partition : Nat) : String :=
  "Message received on " ++ topic ++ ":" ++ toString partition

/-- The Kafka `eachMessage` handler. `value` is the raw message body:
`none` models a message with no value (the handler returns early), an
`Except.error` models a `JSON.parse` failure (caught and logged, nothing
published), and `Except.ok` carries the parsed object. On success the
handler calls `publish` once, substituting the topic name / generic text
for missing fields and using `parsed.source || 'kafka'` as the source.
Returns the list of payloads published for this message. -/
def eachMessage (topic : String) (partition : Nat)
    (value : Option (Except String KafkaParsed))
    (freshId : String) (now : String) : List NotificationPayload :=
  match value with
  | none => []
  | some (Except.error _) => []
  | some (Except.ok parsed) =>
    [publish
      { type := parsed.type.getD topic
        title := parsed.title.getD "Kafka event received"
        message := parsed.message.getD (kafkaDefaultMessage topic partition)
        severity := some (parsed.severity.getD NotificationSeverity.info)
        data := some (parsed.data.getD parsed.selfFields) }
      (parsed.source.getD NotificationSource.kafka) freshId now]

/-- A Kafka message body that parses successfully and carries its own
`source` field set to `api`. -/
def apiTaggedParsed : KafkaParsed :=
  { type := some "asset.created"
    title := some "Asset created"
    message := some "truck-1 was created."
    severity := none
    data := none
    source := some NotificationSource.api
    selfFields := [] }

/-- The `keys` object of a push-subscribe request. -/
structure PushKeys where
  p256dh : String
  auth : String
deriving DecidableEq, Repr

/-- A push-subscribe request `{endpoint, expirationTime?, keys}`. -/
structure PushSubscriptionRequest where
  endpoint : String
  expirationTime : Option Int
  keys : PushKeys
deriving DecidableEq, Repr

/-- A row of the `push_subscriptions` table. -/
structure PushSubscriptionRow where
  id : String
  endpoint : String
  p256dh : String
  auth : String
  expiration_time : Option Int
  user_agent : Option String
  created_at : Nat
  updated_at : Nat
deriving DecidableEq, Repr

/-- The `userAgent || null` coercion of the insert: an absent or empty
(falsy) user-agent string is stored as NULL. -/
def normalizeUserAgent (ua : Option String) : Option String :=
  match ua with
  | some s => if s = "" then none else some s
  | none => none

/-- `savePushSubscription`: an
`INSERT ... ON CONFLICT (endpoint) DO UPDATE` against the
`push_subscriptions` table (which has a unique index on `endpoint`). If a
row with the endpoint exists it is updated in place with the new keys,
expiration and user-agent (and `updated_at`); otherwise a fresh row is
inserted. `freshId` stands for the generated row id, `now` for
`CURRENT_TIMESTAMP`. Returns the new table. -/
def savePushSubscription (table : List PushSubscriptionRow)
    (payload : PushSubscriptionRequest) (userAgent : Option String)
    (freshId : String) (now : Nat) : List PushSubscriptionRow :=
  if table.any (fun r => r.endpoint == payload.endpoint) then
    table.map (fun r =>
      if r.endpoint == payload.endpoint then
        { r with
            p256dh := payload.keys.p256dh
            auth := payload.keys.auth
            expiration_time := payload.expirationTime
            user_agent := normalizeUserAgent userAgent
            updated_at := now }
      else r)
  else
    table ++ [{ id := freshId
                endpoint := payload.endpoint
                p256dh := payload.keys.p256dh
                auth := payload.keys.auth
                expiration_time := payload.expirationTime
                user_agent := normalizeUserAgent userAgent
                created_at := now
                updated_at := now }]

/-- Invariant of the `push_subscriptions` table: the unique index on
`endpoint` holds. -/
def uniqueEndpoints (table : List PushSubscriptionRow) : Prop :=
  (table.map (fun r => r.endpoint)).Nodup

/-- The server handle behind `appInstance?.server`; a publish on the assets
topic reaches its current topic subscribers. -/
structure ServerHandle where
  topicSubscribers : Nat
deriving DecidableEq, Repr

/-- The module-level `appInstance` reference: an Elysia app whose `server`
field may still be unset. -/
structure AppRef where
  server : Option ServerHandle
deriving DecidableEq, Repr

/-- Serialization of an outbound message (`JSON.stringify(message)`),
modelled abstractly: the claims below only depend on a single string being
produced. -/
def serializeWSMessage (m : WSMessage) : String :=
  m.type ++ "|" ++ toString m.timestamp

/-- One `server.publish(ASSETS_TOPIC, str)` call: the runtime writes the
string to every current topic subscriber. Returns the number of write
attempts. -/
def publishAttempts (srv : ServerHandle) (_payload : String) : Nat :=
  srv.topicSubscribers

/-- `broadcast` of `websocket.ts`: if `appInstance?.server` is unavailable
it warns and returns — zero write attempts, the event is dropped.
Otherwise it serializes once and publishes to the topic. The `Except`
result records whether the call raised to its caller. -/
def broadcastPub (app : Option AppRef) (message : WSMessage) : Except String Nat :=
  match app with
  | none => Except.ok 0
  | some a =>
    match a.server with
    | none => Except.ok 0
    | some srv =>
      let messageStr := serializeWSMessage message
      Except.ok (publishAttempts srv messageStr)

/-- A first push-subscribe request for an endpoint. -/
def wPushReq1 : PushSubscriptionRequest :=
  { endpoint := "https://push.example/ep-1", expirationTime := none
    keys := { p256dh := "key-a", auth := "auth-a" } }

/-- A second request for the same endpoint with different keys and
expiration. -/
def wPushReq2 : PushSubscriptionRequest :=
  { endpoint := "https://push.example/ep-1", expirationTime := some 99
    keys := { p256dh := "key-b", auth := "auth-b" } }

theorem mem_insertDesc {α : Type} (key : α → Nat) (a x : α) (l : List α) :
    x ∈ insertDesc key a l ↔ x = a ∨ x ∈ l := by
  induction l with
  | nil => simp [insertDesc]
  | cons b t ih =>
    by_cases h : key b ≤ key a
    · simp [insertDesc, h]
    · simp [insertDesc, h, ih]
      tauto

theorem mem_sortDesc {α : Type} (key : α → Nat) (x : α) (l : List α) :
    x ∈ sortDesc key l ↔ x ∈ l := by
  induction l with
  | nil => simp [sortDesc]
  | cons a t ih => simp [sortDesc, mem_insertDesc, ih]

theorem mem_createdQuery {table : List AssetRecord} {T : Nat} {a : AssetRecord} :
    a ∈ createdQuery table T ↔ a ∈ table ∧ createdPred T a = true := by
  unfold createdQuery
  rw [mem_sortDesc, List.mem_filter]

theorem mem_updatedQuery {table : List AssetRecord} {T : Nat} {a : AssetRecord} :
    a ∈ updatedQuery table T ↔ a ∈ table ∧ updatedPred T a = true := by
  unfold updatedQuery
  rw [mem_sortDesc, List.mem_filter]

theorem mem_deletedQuery {table : List AssetRecord} {T : Nat} {a : AssetRecord} :
    a ∈ deletedQuery table T ↔ a ∈ table ∧ deletedPred T a = true := by
  unfold deletedQuery
  rw [mem_sortDesc, List.mem_filter]

theorem created_not_updated {T : Nat} {a : AssetRecord} (h : createdPred T a = true) :
    updatedPred T a = false := by
  simp only [createdPred, Bool.and_eq_true, decide_eq_true_eq, beq_iff_eq] at h
  obtain ⟨⟨_, heq⟩, _⟩ := h
  have hlt : ¬ (a.created_at < a.updated_at) := by omega
  simp [updatedPred, hlt]

theorem created_not_deleted {T : Nat} {a : AssetRecord} (h : createdPred T a = true) :
    deletedPred T a = false := by
  simp only [createdPred, Bool.and_eq_true, decide_eq_true_eq, beq_iff_eq] at h
  simp [deletedPred, h.2]

theorem updated_not_deleted {T : Nat} {a : AssetRecord} (h : updatedPred T a = true) :
    deletedPred T a = false := by
  simp only [updatedPred, Bool.and_eq_true, decide_eq_true_eq, beq_iff_eq] at h
  simp [deletedPred, h.2]

/-- Claim C1: within one polling window (watermark `T`), one call of the
change detector reports a record in at most one of the three categories —
the created, updated and deleted predicates (and hence the three query
result sets of `pollForUpdates`) are pairwise disjoint. -/
theorem classification_exclusivity (st : Store) (T : Nat) (a : AssetRecord) :
    (decide (a ∈ createdQuery st.table T)).toNat
      + (decide (a ∈ updatedQuery st.table T)).toNat
      + (decide (a ∈ deletedQuery st.table T)).toNat ≤ 1 := by
  by_cases hc : a ∈ createdQuery st.table T
  · have hcp := (mem_createdQuery.mp hc).2
    have hu : a ∉ updatedQuery st.table T := by
      intro hmem
      have := (mem_updatedQuery.mp hmem).2
      rw [created_not_updated hcp] at this
      exact Bool.false_ne_true this
    have hd : a ∉ deletedQuery st.table T := by
      intro hmem
      have := (mem_deletedQuery.mp hmem).2
      rw [created_not_deleted hcp] at this
      exact Bool.false_ne_true this
    simp [hc, hu, hd]
  · by_cases hu : a ∈ updatedQuery st.table T
    · have hup := (mem_updatedQuery.mp hu).2
      have hd : a ∉ deletedQuery st.table T := by
        intro hmem
        have := (mem_deletedQuery.mp hmem).2
        rw [updated_not_deleted hup] at this
        exact Bool.false_ne_true this
      simp [hc, hu, hd]
    · by_cases hd : a ∈ deletedQuery st.table T
      · simp [hc, hu, hd]
      · simp [hc, hu, hd]

/-- Claim C2: on a successful run the new watermark is the poll start time
(`currentTime`, captured before the three queries are issued), and a record
whose relevant timestamp exceeds that capture point — e.g. a mutation
committed strictly between watermark capture and query execution — satisfies
the matching predicate at the new watermark, so the next tick's query over
the then-current table reports it again rather than losing it. -/
theorem watermark_equals_poll_start (st stNext : Store) (T startTime : Nat)
    (hok : pollSucceeds st = true) (a : AssetRecord) (ha : a ∈ stNext.table) :
    (pollForUpdates st T startTime).lastCheckTime = startTime ∧
    (createdPred startTime a = true →
      a ∈ createdQuery stNext.table (pollForUpdates st T startTime).lastCheckTime) ∧
    (updatedPred startTime a = true →
      a ∈ updatedQuery stNext.table (pollForUpdates st T startTime).lastCheckTime) ∧
    (deletedPred startTime a = true →
      a ∈ deletedQuery stNext.table (pollForUpdates st T startTime).lastCheckTime) := by
  simp only [pollSucceeds, Bool.and_eq_true, Bool.not_eq_true'] at hok
  obtain ⟨⟨h1, h2⟩, h3⟩ := hok
  have hwm : (pollForUpdates st T startTime).lastCheckTime = startTime := by
    simp [pollForUpdates, runCreatedQuery, runUpdatedQuery, runDeletedQuery, h1, h2, h3]
  refine ⟨hwm, ?_, ?_, ?_⟩ <;> intro hp <;> rw [hwm]
  · exact mem_createdQuery.mpr ⟨ha, hp⟩
  · exact mem_updatedQuery.mpr ⟨ha, hp⟩
  · exact mem_deletedQuery.mpr ⟨ha, hp⟩

/-- Concrete instance of `watermark_equals_poll_start`: a record created at
time 7, inside the race window of a poll that started at time 5, is in the
created query of the next tick. -/
theorem watermark_equals_poll_start_witness :
    pollSucceeds wStore = true ∧ wRecord ∈ wStoreNext.table ∧
    ((pollForUpdates wStore 3 5).lastCheckTime = 5 ∧
     (createdPred 5 wRecord = true →
       wRecord ∈ createdQuery wStoreNext.table (pollForUpdates wStore 3 5).lastCheckTime) ∧
     (updatedPred 5 wRecord = true →
       wRecord ∈ updatedQuery wStoreNext.table (pollForUpdates wStore 3 5).lastCheckTime) ∧
     (deletedPred 5 wRecord = true →
       wRecord ∈ deletedQuery wStoreNext.table (pollForUpdates wStore 3 5).lastCheckTime)) :=
  ⟨by decide, by decide,
    watermark_equals_poll_start wStore wStoreNext 3 5 (by decide) wRecord (by decide)⟩

/-- Claim C3: if any of the three store queries throws, the detector run
still returns normally (`pollForUpdates` is total, the `catch` swallows the
error) and `lastCheckTime` is left exactly as it was, so the next tick
retries the same window. -/
theorem query_failure_leaves_watermark (st : Store) (T now : Nat)
    (h : st.failCreated = true ∨ st.failUpdated = true ∨ st.failDeleted = true) :
    (pollForUpdates st T now).lastCheckTime = T := by
  rcases h with h | h | h
  · simp [pollForUpdates, runCreatedQuery, h]
  · cases hc : st.failCreated <;>
      simp [pollForUpdates, runCreatedQuery, runUpdatedQuery, hc, h]
  · cases hc : st.failCreated <;> cases hu : st.failUpdated <;>
      simp [pollForUpdates, runCreatedQuery, runUpdatedQuery, runDeletedQuery, hc, hu, h]

/-- Concrete instance of `query_failure_leaves_watermark`: the store whose
updated-assets query throws leaves the watermark at 3. -/
theorem query_failure_leaves_watermark_witness :
    (wStoreFailing.failCreated = true ∨ wStoreFailing.failUpdated = true ∨
      wStoreFailing.failDeleted = true) ∧
    (pollForUpdates wStoreFailing 3 9).lastCheckTime = 3 :=
  ⟨by decide, query_failure_leaves_watermark wStoreFailing 3 9 (by decide)⟩

/-- Claim C4 (code bug): with two registered sessions and the poll timer
running, the error-then-close sequence for one session runs both the
`error` handler and the `close` handler, and each decrements
`subscriberCount`: the count drops by two (2 to 0) instead of one, and the
`close` handler then stops polling although one session is still
connected. -/
theorem error_then_close_decrements_twice :
    (handleClose (handleError
        { subscriberCount := 2, pollTimer := true, activeTimers := 1 })).subscriberCount = 0 ∧
    (handleClose (handleError
        { subscriberCount := 2, pollTimer := true, activeTimers := 1 })).pollTimer = false := by
  decide

/-- Claim C5 (code bug): when the last session leaves via the `error`
callback, the subscriber count reaches zero but the `error` handler never
calls `stopPolling`, so the interval timer stays active and the scheduler
does not return to idle. (Starting state: the state `handleOpen` produces
from zero sessions: one subscriber, one running timer.) -/
theorem error_path_leaves_timer_running :
    handleOpen { subscriberCount := 0, pollTimer := false, activeTimers := 0 }
        = { subscriberCount := 1, pollTimer := true, activeTimers := 1 } ∧
    (handleError { subscriberCount := 1, pollTimer := true, activeTimers := 1 }).subscriberCount
        = 0 ∧
    (handleError { subscriberCount := 1, pollTimer := true, activeTimers := 1 }).pollTimer
        = true ∧
    (handleError { subscriberCount := 1, pollTimer := true, activeTimers := 1 }).activeTimers
        = 1 := by
  decide

theorem broadcastEach_attempts (fails : Nat → Bool) :
    ∀ (l conns : List Nat), (broadcastEach fails l conns).2 = l.length := by
  intro l
  induction l with
  | nil => intro conns; rfl
  | cons c rest ih => intro conns; simp [broadcastEach, ih]

/-- Claim C6: one `broadcast` call of the set-based revision over a
registry of N sessions makes exactly N send attempts, whatever subset of
the sends throws — a failing write on one session never aborts the loop or
reduces the attempt count for the other N-1 sessions. -/
theorem fanout_attempt_count (fails : Nat → Bool) (conns : List Nat) :
    (broadcastSet fails conns).2 = conns.length := by
  rw [broadcastSet]
  exact broadcastEach_attempts fails conns conns

theorem broadcastEach_fst (fails : Nat → Bool) :
    ∀ (l conns : List Nat), conns.Nodup →
      (broadcastEach fails l conns).1
        = conns.filter (fun c => !(fails c && decide (c ∈ l))) := by
  intro l
  induction l with
  | nil => intro conns _; simp [broadcastEach]
  | cons c rest ih =>
    intro conns hnd
    by_cases hf : fails c = true
    · have h1 : (broadcastEach fails (c :: rest) conns).1
          = (broadcastEach fails rest (conns.erase c)).1 := by
        simp [broadcastEach, hf]
      rw [h1, ih (conns.erase c) (hnd.erase c), hnd.erase_eq_filter c, List.filter_filter]
      apply List.filter_congr
      intro x _
      by_cases hx : x = c
      · subst hx; simp [hf]
      · simp [hx, hf, List.mem_cons]
    · have hf0 : fails c = false := by simpa using hf
      have h1 : (broadcastEach fails (c :: rest) conns).1
          = (broadcastEach fails rest conns).1 := by
        simp [broadcastEach, hf0]
      rw [h1, ih conns hnd]
      apply List.filter_congr
      intro x _
      by_cases hx : x = c
      · subst hx; simp [hf0]
      · simp [hx, List.mem_cons]

/-- Claim C7 (counterexample): with sessions 1 and 2 registered and the
send to session 1 throwing, `broadcast` of the set-based revision deletes
session 1 from the connection set — the registered set after the call is
not the set registered before it. -/
theorem broadcast_modifies_registry_cex :
    ¬ ((broadcastSet (fun c => c == 1) [1, 2]).1 = [1, 2]) := by
  decide

/-- Claim C7 (amended): a failing write is caught per session and does not
abort delivery to the remaining sessions, but the set-based broadcaster
does evict each session whose write throws: the connection set after the
call is exactly the previous set restricted to the sessions whose send
succeeded. -/
theorem broadcast_registry_effect (fails : Nat → Bool) (conns : List Nat)
    (h : conns.Nodup) :
    (broadcastSet fails conns).1 = conns.filter (fun c => !(fails c)) := by
  rw [broadcastSet, broadcastEach_fst fails conns conns h]
  apply List.filter_congr
  intro x hx
  simp [hx]

/-- Concrete instance of `broadcast_registry_effect`: sessions 1, 2, 3 with
the send to session 2 throwing leave exactly sessions 1 and 3 registered. -/
theorem broadcast_registry_effect_witness :
    ([1, 2, 3] : List Nat).Nodup ∧
    (broadcastSet (fun c => c == 2) [1, 2, 3]).1
      = ([1, 2, 3] : List Nat).filter (fun c => !(c == 2)) :=
  ⟨by decide, broadcast_registry_effect (fun c => c == 2) [1, 2, 3] (by decide)⟩

/-- Claim C8 (counterexample): a Kafka message that parses successfully and
carries `source: "api"` is published with source `api`, not the
external-feed tag — `parsed.source || 'kafka'` lets the inbound message
override the tag. -/
theorem kafka_feed_source_cex :
    ((eachMessage "notifications" 0 (some (Except.ok apiTaggedParsed)) "id-1" "t0").map
        (fun p => p.source)) = [NotificationSource.api] ∧
    NotificationSource.api ≠ NotificationSource.kafka := by
  refine ⟨?_, ?_⟩ <;> decide

/-- Claim C8 (amended): for every inbound Kafka message that parses
successfully, exactly one notification is published; missing type, title
and message fields are substituted by the topic name, a generic title, or
the generic topic-and-partition message; severity defaults to `info`; and
the source is the `source` field carried by the message when present, and
the external-feed tag (`kafka`) otherwise. -/
theorem kafka_publish_exactly_one (topic : String) (partition : Nat)
    (parsed : KafkaParsed) (freshId now : String) :
    eachMessage topic partition (some (Except.ok parsed)) freshId now =
      [{ id := freshId
         source := parsed.source.getD NotificationSource.kafka
         type := parsed.type.getD topic
         severity := parsed.severity.getD NotificationSeverity.info
         title := parsed.title.getD "Kafka event received"
         message := parsed.message.getD (kafkaDefaultMessage topic partition)
         data := some (parsed.data.getD parsed.selfFields)
         createdAt := now }] := by
  rfl

theorem endpoint_filter_length_le_one (table : List PushSubscriptionRow) (e : String)
    (h : uniqueEndpoints table) :
    (table.filter (fun r => r.endpoint == e)).length ≤ 1 := by
  induction table with
  | nil => simp
  | cons r t ih =>
    simp only [uniqueEndpoints, List.map_cons, List.nodup_cons] at h
    obtain ⟨hnotin, hnd⟩ := h
    by_cases he : r.endpoint == e
    · have hnil : t.filter (fun x => x.endpoint == e) = [] := by
        rw [List.filter_eq_nil_iff]
        intro x hx hxe
        apply hnotin
        have h1 : x.endpoint = e := by simpa using hxe
        have h2 : r.endpoint = e := by simpa using he
        rw [h2, ← h1]
        exact List.mem_map_of_mem (fun r => r.endpoint) hx
      simp [List.filter_cons, he, hnil]
    · simp only [List.filter_cons, he, if_neg]
      simpa using ih hnd

theorem savePushSubscription_endpoint_count (table : List PushSubscriptionRow)
    (payload : PushSubscriptionRequest) (ua : Option String) (freshId : String) (now : Nat)
    (h : uniqueEndpoints table) :
    ((savePushSubscription table payload ua freshId now).filter
        (fun r => r.endpoint == payload.endpoint)).length = 1 := by
  unfold savePushSubscription
  by_cases hany : table.any (fun r => r.endpoint == payload.endpoint) = true
  · rw [if_pos hany]
    rw [List.filter_map]
    have hcong : table.filter (fun x =>
        ((if x.endpoint == payload.endpoint then
            { x with
                p256dh := payload.keys.p256dh
                auth := payload.keys.auth
                expiration_time := payload.expirationTime
                user_agent := normalizeUserAgent ua
                updated_at := now }
          else x) : PushSubscriptionRow).endpoint == payload.endpoint)
        = table.filter (fun x => x.endpoint == payload.endpoint) := by
      apply List.filter_congr
      intro x _
      by_cases hx : x.endpoint == payload.endpoint
      · simp [hx]
      · simp [hx]
    simp only [Function.comp_def, hcong, List.length_map]
    have hle := endpoint_filter_length_le_one table payload.endpoint h
    have hge : 0 < (table.filter (fun r => r.endpoint == payload.endpoint)).length := by
      obtain ⟨x, hx, hxe⟩ := List.any_eq_true.mp hany
      exact List.length_pos.mpr (List.ne_nil_of_mem (List.mem_filter.mpr ⟨hx, hxe⟩))
    omega
  · rw [if_neg hany]
    rw [List.filter_append]
    have hnil : table.filter (fun r => r.endpoint == payload.endpoint) = [] := by
      rw [List.filter_eq_nil_iff]
      intro x hx hxe
      exact hany (List.any_eq_true.mpr ⟨x, hx, hxe⟩)
    simp [hnil]

theorem savePushSubscription_values (table : List PushSubscriptionRow)
    (payload : PushSubscriptionRequest) (ua : Option String) (freshId : String) (now : Nat) :
    ∀ r ∈ savePushSubscription table payload ua freshId now,
      r.endpoint = payload.endpoint →
        r.p256dh = payload.keys.p256dh ∧ r.auth = payload.keys.auth ∧
        r.expiration_time = payload.expirationTime ∧
        r.user_agent = normalizeUserAgent ua := by
  intro r hr hre
  unfold savePushSubscription at hr
  by_cases hany : table.any (fun x => x.endpoint == payload.endpoint) = true
  · rw [if_pos hany] at hr
    rw [List.mem_map] at hr
    obtain ⟨x, _, hgx⟩ := hr
    by_cases hx : x.endpoint == payload.endpoint
    · rw [if_pos hx] at hgx
      rw [← hgx]
      exact ⟨rfl, rfl, rfl, rfl⟩
    · rw [if_neg hx] at hgx
      rw [← hgx] at hre
      exact absurd (beq_iff_eq.mpr hre) hx
  · rw [if_neg hany] at hr
    rcases List.mem_append.mp hr with hmem | hmem
    · exact (hany (List.any_eq_true.mpr ⟨r, hmem, beq_iff_eq.mpr hre⟩)).elim
    · rw [List.mem_singleton] at hmem
      rw [hmem]
      exact ⟨rfl, rfl, rfl, rfl⟩

theorem savePushSubscription_unique (table : List PushSubscriptionRow)
    (payload : PushSubscriptionRequest) (ua : Option String) (freshId : String) (now : Nat)
    (h : uniqueEndpoints table) :
    uniqueEndpoints (savePushSubscription table payload ua freshId now) := by
  unfold uniqueEndpoints savePushSubscription
  by_cases hany : table.any (fun x => x.endpoint == payload.endpoint) = true
  · rw [if_pos hany, List.map_map]
    have hfun : ((fun r : PushSubscriptionRow => r.endpoint) ∘ (fun r =>
        if r.endpoint == payload.endpoint then
          { r with
              p256dh := payload.keys.p256dh
              auth := payload.keys.auth
              expiration_time := payload.expirationTime
              user_agent := normalizeUserAgent ua
              updated_at := now }
        else r)) = (fun r : PushSubscriptionRow => r.endpoint) := by
      funext x
      by_cases hx : x.endpoint = payload.endpoint
      · simp [Function.comp_def, hx]
      · simp [Function.comp_def, hx]
    rw [hfun]
    exact h
  · rw [if_neg hany, List.map_append]
    rw [List.nodup_append_comm]
    simp only [List.map_cons, List.map_nil, List.singleton_append, List.nodup_cons]
    constructor
    · intro hmem
      rw [List.mem_map] at hmem
      obtain ⟨x, hx, hxe⟩ := hmem
      exact hany (List.any_eq_true.mpr ⟨x, hx, beq_iff_eq.mpr hxe⟩)
    · exact h

/-- Claim C9: push-subscribe is idempotent by endpoint — starting from a
table satisfying the unique-endpoint index, two `savePushSubscription`
calls with the same endpoint and different keys, expiration and user-agent
leave exactly one row for that endpoint, and that row holds the keys,
expiration and (null-normalized) user-agent of the second call. -/
theorem idempotent_subscribe (table : List PushSubscriptionRow)
    (p1 p2 : PushSubscriptionRequest) (ua1 ua2 : Option String)
    (id1 id2 : String) (t1 t2 : Nat)
    (hend : p2.endpoint = p1.endpoint) (hu : uniqueEndpoints table) :
    ((savePushSubscription (savePushSubscription table p1 ua1 id1 t1) p2 ua2 id2 t2).filter
        (fun r => r.endpoint == p1.endpoint)).length = 1 ∧
    (∀ r ∈ savePushSubscription (savePushSubscription table p1 ua1 id1 t1) p2 ua2 id2 t2,
      r.endpoint = p1.endpoint →
        r.p256dh = p2.keys.p256dh ∧ r.auth = p2.keys.auth ∧
        r.expiration_time = p2.expirationTime ∧
        r.user_agent = normalizeUserAgent ua2) := by
  have hu1 := savePushSubscription_unique table p1 ua1 id1 t1 hu
  constructor
  · have hc := savePushSubscription_endpoint_count
      (savePushSubscription table p1 ua1 id1 t1) p2 ua2 id2 t2 hu1
    rw [hend] at hc
    exact hc
  · intro r hr hre
    exact savePushSubscription_values
      (savePushSubscription table p1 ua1 id1 t1) p2 ua2 id2 t2 r hr (by rw [hend, hre])

/-- Concrete instance of `idempotent_subscribe`: subscribing the same
endpoint twice, first with keys `key-a`/`auth-a` and then with
`key-b`/`auth-b`, leaves one row holding the second call's values. -/
theorem idempotent_subscribe_witness :
    wPushReq2.endpoint = wPushReq1.endpoint ∧ uniqueEndpoints [] ∧
    (((savePushSubscription (savePushSubscription [] wPushReq1 none "id-a" 1)
          wPushReq2 (some "agent-b") "id-b" 2).filter
        (fun r => r.endpoint == wPushReq1.endpoint)).length = 1 ∧
     (∀ r ∈ savePushSubscription (savePushSubscription [] wPushReq1 none "id-a" 1)
          wPushReq2 (some "agent-b") "id-b" 2,
       r.endpoint = wPushReq1.endpoint →
         r.p256dh = wPushReq2.keys.p256dh ∧ r.auth = wPushReq2.keys.auth ∧
         r.expiration_time = wPushReq2.expirationTime ∧
         r.user_agent = normalizeUserAgent (some "agent-b"))) :=
  ⟨rfl, by simp [uniqueEndpoints],
    idempotent_subscribe [] wPushReq1 wPushReq2 none (some "agent-b") "id-a" "id-b" 1 2
      rfl (by simp [uniqueEndpoints])⟩

/-- Claim C10: before a server instance is available — `appInstance` never
set, or set to an app whose `server` is not live — `broadcast` returns
normally with zero write attempts, silently dropping the event; and for
every message and every app state it never raises an error to its
caller. -/
theorem broadcast_without_server_is_silent (message : WSMessage) (app : Option AppRef) :
    broadcastPub none message = Except.ok 0 ∧
    broadcastPub (some { server := none }) message = Except.ok 0 ∧
    ∃ n, broadcastPub app message = Except.ok n := by
  refine ⟨rfl, rfl, ?_⟩
  rcases app with _ | a
  · exact ⟨0, rfl⟩
  · rcases a with ⟨_ | srv⟩
    · exact ⟨0, rfl⟩
    · exact ⟨srv.topicSubscribers, rfl⟩
